import Mathlib

/-!
Verification development for the creator-discovery backend
(src/main.py and src/schemas.py).

The document store is modelled shallowly: a BSON-like value type, documents
as association lists of field name to value, and a store state holding the
two collections (segment, creator) together with a counter supplying the
opaque store-assigned identifiers.  The endpoint handlers of src/main.py are
translated into pure functions over that state; fallible paths (HTTP 500,
propagated validation or conversion errors) return Except.
-/

/-- BSON-like document values.  Python floats are modelled as rationals;
the repository only manipulates float literals and never performs float
arithmetic, so no rounding behaviour is observable.  Arrays are arrays of
strings: every array the repository reads or writes (platforms, segments,
languages, the $in filter list) holds strings. -/
inductive BVal where
  | vNull : BVal
  | vBool : Bool → BVal
  | vInt : Int → BVal
  | vFloat : Rat → BVal
  | vStr : String → BVal
  | vList : List String → BVal
deriving DecidableEq, Repr

/-- A stored document: an association list of field name to value. -/
abbrev Doc := List (String × BVal)

/-- Field lookup, first binding wins (Python dicts have unique keys). -/
def docGet (d : Doc) (k : String) : Option BVal :=
  match d.find? (fun kv => kv.1 == k) with
  | some kv => some kv.2
  | none => none

/-- MongoDB equality filter semantics for a single field, as used by the
find_one calls in seed_data: a scalar filter value matches a field that
equals it or an array field containing it; a null filter value also
matches a missing field. -/
def mongoEqMatch (fieldVal : Option BVal) (v : BVal) : Bool :=
  match fieldVal with
  | none => v == .vNull
  | some (.vList xs) =>
    .vList xs == v ||
      (match v with
       | .vStr s => xs.contains s
       | _ => false)
  | some w => w == v

/-- MongoDB $in filter semantics, as used by the segments filter of
top_creators: matches when the field equals one of the listed values or is
an array containing one of them. -/
def mongoInMatch (fieldVal : Option BVal) (vs : List BVal) : Bool :=
  match fieldVal with
  | none => vs.contains .vNull
  | some (.vList xs) => vs.contains (.vList xs) || xs.any (fun x => vs.contains (.vStr x))
  | some w => vs.contains w

/-- Python truthiness of a document value, as used by bool(...). -/
def pyTruthy : BVal → Bool
  | .vNull => false
  | .vBool b => b
  | .vInt n => n != 0
  | .vFloat q => q != 0
  | .vStr s => s != ""
  | .vList xs => !xs.isEmpty

/-- Truncation toward zero, the behaviour of Python int() on a float. -/
def ratTrunc (q : Rat) : Int := q.num.tdiv q.den

/-- Python int(v) on a document value.  Decimal strings with a fractional
part are not modelled (no seed datum or claim exercises them). -/
def pyIntE : BVal → Except String Int
  | .vInt n => .ok n
  | .vBool b => .ok (if b then 1 else 0)
  | .vFloat q => .ok (ratTrunc q)
  | .vStr s =>
    match s.toInt? with
    | some n => .ok n
    | none => .error "invalid literal for int"
  | .vNull => .error "int of NoneType"
  | .vList _ => .error "int of list"

/-- Python float(v) on a document value.  Decimal strings with a fractional
part are not modelled (no seed datum or claim exercises them). -/
def pyFloatE : BVal → Except String Rat
  | .vFloat q => .ok q
  | .vInt n => .ok (n : Rat)
  | .vBool b => .ok (if b then 1 else 0)
  | .vStr s =>
    match s.toInt? with
    | some n => .ok ((n : Int) : Rat)
    | none => .error "could not convert string to float"
  | .vNull => .error "float of NoneType"
  | .vList _ => .error "float of list"

/-- MongoDB cursor limit semantics: a limit of 0 means no limit; a negative
limit returns at most its absolute value of documents. -/
def mongoLimit (n : Int) (xs : List α) : List α :=
  if n = 0 then xs else xs.take n.natAbs

/-- The store state: the two collections (each a list of store-assigned id
paired with document, in insertion order) and the counter supplying fresh
ids on insert_one. -/
structure MDB where
  segment : List (Nat × Doc)
  creator : List (Nat × Doc)
  nextId : Nat
deriving DecidableEq, Repr

def emptyMDB : MDB := ⟨[], [], 0⟩

/-- The check-then-insert loop shared by both halves of seed_data: for each
catalog entry, find_one on the natural key; insert (append, with a fresh
id) and count only when nothing matched.  Every catalog entry carries its
natural key, so the getD fallback to null is never reached on repo data. -/
def seedLoop (key : String) (entries : List Doc) (coll : List (Nat × Doc))
    (nid cnt : Nat) : List (Nat × Doc) × Nat × Nat :=
  match entries with
  | [] => (coll, nid, cnt)
  | e :: rest =>
    if (coll.find? (fun p =>
        mongoEqMatch (docGet p.2 key) ((docGet e key).getD .vNull))).isSome then
      seedLoop key rest coll nid cnt
    else
      seedLoop key rest (coll ++ [(nid, e)]) (nid + 1) (cnt + 1)

/-- The fixed segment seed catalog of seed_data (src/main.py). -/
def segmentsSeed : List Doc :=
  [ [("name", .vStr "Technology"), ("slug", .vStr "technology"),
     ("description", .vStr "Tech reviews, coding, gadgets"), ("color", .vStr "#60A5FA")],
    [("name", .vStr "Gaming"), ("slug", .vStr "gaming"),
     ("description", .vStr "Let\"s plays, esports, streaming"), ("color", .vStr "#A78BFA")],
    [("name", .vStr "Lifestyle"), ("slug", .vStr "lifestyle"),
     ("description", .vStr "Wellness, productivity, daily vlogs"), ("color", .vStr "#34D399")],
    [("name", .vStr "Education"), ("slug", .vStr "education"),
     ("description", .vStr "Explainers, tutorials, lectures"), ("color", .vStr "#F59E0B")] ]

/-- The fixed creator seed catalog of seed_data (src/main.py). -/
def creatorsSeed : List Doc :=
  [ [("name", .vStr "TechNova"), ("handle", .vStr "technova"),
     ("platforms", .vList ["YouTube", "X", "TikTok"]),
     ("avatar_url", .vStr "https://i.pravatar.cc/150?img=11"),
     ("bio", .vStr "Deep dives into emerging tech."),
     ("segments", .vList ["technology"]),
     ("followers", .vInt 1200000), ("rating", .vFloat (mkRat 47 10)), ("verified", .vBool true)],
    [("name", .vStr "GamePulse"), ("handle", .vStr "gamepulse"),
     ("platforms", .vList ["Twitch", "YouTube"]),
     ("avatar_url", .vStr "https://i.pravatar.cc/150?img=12"),
     ("bio", .vStr "Strategy breakdowns and chill streams."),
     ("segments", .vList ["gaming"]),
     ("followers", .vInt 860000), ("rating", .vFloat (mkRat 45 10)), ("verified", .vBool true)],
    [("name", .vStr "DailyFlow"), ("handle", .vStr "dailyflow"),
     ("platforms", .vList ["Instagram", "YouTube"]),
     ("avatar_url", .vStr "https://i.pravatar.cc/150?img=13"),
     ("bio", .vStr "Wellness routines that actually stick."),
     ("segments", .vList ["lifestyle"]),
     ("followers", .vInt 430000), ("rating", .vFloat (mkRat 43 10)), ("verified", .vBool false)],
    [("name", .vStr "ProfLearn"), ("handle", .vStr "proflearn"),
     ("platforms", .vList ["YouTube", "Udemy"]),
     ("avatar_url", .vStr "https://i.pravatar.cc/150?img=14"),
     ("bio", .vStr "Clear, concise CS courses."),
     ("segments", .vList ["education", "technology"]),
     ("followers", .vInt 650000), ("rating", .vFloat (mkRat 48 10)), ("verified", .vBool true)] ]

/-- Response model of the seed endpoint. -/
structure SeedResponse where
  segments_created : Nat
  creators_created : Nat
deriving DecidableEq, Repr

/-- The body of seed_data after the null-handle check: seed segments by
slug, then creators by handle, reporting both created counts. -/
def seed_data_impl (db : MDB) : MDB × SeedResponse :=
  let s := seedLoop "slug" segmentsSeed db.segment db.nextId 0
  let c := seedLoop "handle" creatorsSeed db.creator s.2.1 0
  (⟨s.1, c.1, c.2.1⟩, ⟨s.2.2, c.2.2⟩)

/-- Response model CreatorOut of src/main.py. -/
structure CreatorOut where
  id : String
  name : String
  handle : Option String
  avatar_url : Option String
  segments : List String
  followers : Int
  rating : Rat
  verified : Bool
deriving DecidableEq, Repr

/-- Response model SegmentOut of src/main.py. -/
structure SegmentOut where
  name : String
  slug : String
  description : Option String
  color : Option String
deriving DecidableEq, Repr

/-- A required str field of a response model: d.get(k) must yield a string,
otherwise validation fails. -/
def getReqStr (d : Doc) (k : String) : Except String String :=
  match docGet d k with
  | some (.vStr s) => .ok s
  | _ => .error (k ++ ": str required")

/-- An optional str field of a response model: missing or null becomes
none, a string is kept, anything else fails validation. -/
def getOptStr (d : Doc) (k : String) : Except String (Option String) :=
  match docGet d k with
  | none => .ok none
  | some .vNull => .ok none
  | some (.vStr s) => .ok (some s)
  | some _ => .error (k ++ ": str or none required")

/-- The segments field of CreatorOut: d.get("segments", []) validated as a
list of strings, an absent field defaulting to the empty list. -/
def getSegments (d : Doc) : Except String (List String) :=
  match docGet d "segments" with
  | none => .ok []
  | some (.vList xs) => .ok xs
  | some _ => .error "segments: list required"

/-- The followers field of CreatorOut: int(d.get("followers", 0)). -/
def getFollowers (d : Doc) : Except String Int :=
  pyIntE ((docGet d "followers").getD (.vInt 0))

/-- The rating field of CreatorOut: float(d.get("rating", 0)). -/
def getRating (d : Doc) : Except String Rat :=
  pyFloatE ((docGet d "rating").getD (.vInt 0))

/-- The verified field of CreatorOut: bool(d.get("verified", False)). -/
def getVerified (d : Doc) : Bool :=
  pyTruthy ((docGet d "verified").getD (.vBool false))

/-- The per-document projection of the top_creators loop: build a
CreatorOut from a stored (id, document) pair; the first failing field
conversion or validation aborts with its error. -/
def projectCreator (p : Nat × Doc) : Except String CreatorOut :=
  match getReqStr p.2 "name", getOptStr p.2 "handle", getOptStr p.2 "avatar_url",
        getSegments p.2, getFollowers p.2, getRating p.2 with
  | .ok nm, .ok hd, .ok av, .ok sg, .ok fo, .ok ra =>
    .ok ⟨toString p.1, nm, hd, av, sg, fo, ra, getVerified p.2⟩
  | .error e, _, _, _, _, _ => .error e
  | _, .error e, _, _, _, _ => .error e
  | _, _, .error e, _, _, _ => .error e
  | _, _, _, .error e, _, _ => .error e
  | _, _, _, _, .error e, _ => .error e
  | _, _, _, _, _, .error e => .error e

/-- Unwrap an Except with a fallback for the error case. -/
def okD (e : Except String α) (dflt : α) : α :=
  match e with
  | .ok a => a
  | .error _ => dflt

/-- The total counterpart of projectCreator, agreeing with it on every
well-formed document (projectCreator_ok below). -/
def creatorOutOf (p : Nat × Doc) : CreatorOut :=
  ⟨toString p.1, okD (getReqStr p.2 "name") "", okD (getOptStr p.2 "handle") none,
   okD (getOptStr p.2 "avatar_url") none, okD (getSegments p.2) [],
   okD (getFollowers p.2) 0, okD (getRating p.2) 0, getVerified p.2⟩

/-- Did an Except succeed. -/
def exOk : Except String α → Bool
  | .ok _ => true
  | .error _ => false

/-- A creator document every field conversion of the read path accepts. -/
def wfCreatorDoc (d : Doc) : Bool :=
  exOk (getReqStr d "name") && exOk (getOptStr d "handle") &&
    exOk (getOptStr d "avatar_url") && exOk (getSegments d) &&
    exOk (getFollowers d) && exOk (getRating d)

/-- The result-building loop of top_creators over the cursor: project each
document in order, the first failure propagating. -/
def projectAll : List (Nat × Doc) → Except String (List CreatorOut)
  | [] => .ok []
  | p :: ps =>
    match projectCreator p, projectAll ps with
    | .ok c, .ok cs => .ok (c :: cs)
    | .error e, _ => .error e
    | _, .error e => .error e

/-- The per-document projection of the list_segments loop. -/
def projectSegment (d : Doc) : Except String SegmentOut :=
  match getReqStr d "name", getReqStr d "slug",
        getOptStr d "description", getOptStr d "color" with
  | .ok nm, .ok sl, .ok ds, .ok co => .ok ⟨nm, sl, ds, co⟩
  | .error e, _, _, _ => .error e
  | _, .error e, _, _ => .error e
  | _, _, .error e, _ => .error e
  | _, _, _, .error e => .error e

/-- The result-building loop of list_segments. -/
def projectAllSeg : List (Nat × Doc) → Except String (List SegmentOut)
  | [] => .ok []
  | p :: ps =>
    match projectSegment p.2, projectAllSeg ps with
    | .ok c, .ok cs => .ok (c :: cs)
    | .error e, _ => .error e
    | _, .error e => .error e

/-- The MongoDB sort key of a document under sort("followers", -1):
BSON groups values by type (missing and null lowest, then numbers, then
strings, then arrays, then booleans) and compares numbers by value.
Ordering inside the non-numeric groups is not exercised by this
repository and is collapsed to a tie (the spec leaves tie order
unspecified). -/
def docKey (d : Doc) : Nat × Rat :=
  match docGet d "followers" with
  | none => (0, 0)
  | some .vNull => (0, 0)
  | some (.vInt n) => (1, (n : Rat))
  | some (.vFloat q) => (1, q)
  | some (.vStr _) => (2, 0)
  | some (.vList _) => (3, 0)
  | some (.vBool _) => (4, 0)

/-- Lexicographic order on sort keys. -/
def keyLE (a b : Nat × Rat) : Prop :=
  a.1 < b.1 ∨ (a.1 = b.1 ∧ a.2 ≤ b.2)

instance keyLEDec (a b : Nat × Rat) : Decidable (keyLE a b) := by
  unfold keyLE
  exact inferInstance

/-- The descending-followers document order of sort("followers", -1). -/
def descOrder (p q : Nat × Doc) : Prop :=
  keyLE (docKey q.2) (docKey p.2)

instance descOrderDec : DecidableRel descOrder := fun _ _ => keyLEDec _ _

instance descOrderTotal : IsTotal (Nat × Doc) descOrder :=
  ⟨fun p q => by
    unfold descOrder keyLE
    rcases Nat.lt_trichotomy (docKey q.2).1 (docKey p.2).1 with h | h | h
    · exact Or.inl (Or.inl h)
    · rcases le_total (docKey q.2).2 (docKey p.2).2 with h2 | h2
      · exact Or.inl (Or.inr ⟨h, h2⟩)
      · exact Or.inr (Or.inr ⟨h.symm, h2⟩)
    · exact Or.inr (Or.inl h)⟩

instance descOrderTrans : IsTrans (Nat × Doc) descOrder :=
  ⟨fun p q r hpq hqr => by
    unfold descOrder keyLE at hpq hqr ⊢
    rcases hpq with h1 | ⟨h1, h1b⟩ <;> rcases hqr with h2 | ⟨h2, h2b⟩
    · exact Or.inl (by omega)
    · exact Or.inl (by omega)
    · exact Or.inl (by omega)
    · exact Or.inr ⟨by omega, le_trans h2b h1b⟩⟩

/-- The sort step of top_creators: stable sort by followers descending. -/
def sortFollowersDesc (l : List (Nat × Doc)) : List (Nat × Doc) :=
  List.insertionSort descOrder l

/-- The filter built by top_creators: Python truthiness makes both a
missing segment parameter and the empty string produce the empty filter;
otherwise the $in filter on the segments field. -/
def creatorFilter (segment : Option String) (d : Doc) : Bool :=
  match segment with
  | none => true
  | some s => if s = "" then true else mongoInMatch (docGet d "segments") [.vStr s]

/-- The body of top_creators after the null-handle check:
find(filt).sort("followers", -1).limit(limit), then project each document. -/
def top_creators_impl (db : MDB) (segment : Option String) (limit : Int) :
    Except String (List CreatorOut) :=
  projectAll (mongoLimit limit
    (sortFollowersDesc (db.creator.filter (fun p => creatorFilter segment p.2))))

/-- Modelled from the spec: the document store adapter (the database
module imported by src/main.py, not under src/) exposes a read_all
operation returning every document of a named collection in store order
(spec section 4.1). -/
def get_documents (db : MDB) (coll : String) : List (Nat × Doc) :=
  if coll = "segment" then db.segment
  else if coll = "creator" then db.creator
  else []

/-- The body of list_segments after the null-handle check. -/
def list_segments_impl (db : MDB) : Except String (List SegmentOut) :=
  projectAllSeg (get_documents db "segment")

/-- An endpoint failure: an explicit HTTPException, or a propagated
store or validation exception (framework-level generic error). -/
inductive ApiErr where
  | http : Nat → String → ApiErr
  | exc : String → ApiErr
deriving DecidableEq, Repr

/-- The message objects returned by the two static endpoints. -/
structure MessageResponse where
  message : String
deriving DecidableEq, Repr

/-- GET / of src/main.py. -/
def read_root : MessageResponse := ⟨"Creator Social API running"⟩

/-- GET /api/hello of src/main.py. -/
def hello : MessageResponse := ⟨"Hello from the Creator Social backend!"⟩

/-- POST /seed of src/main.py: explicit 500 on a null database handle,
otherwise the seed procedure. -/
def seed_data (dbOpt : Option MDB) : Except ApiErr (MDB × SeedResponse) :=
  match dbOpt with
  | none => .error (.http 500 "Database not configured")
  | some db => .ok (seed_data_impl db)

/-- GET /segments of src/main.py. -/
def list_segments (dbOpt : Option MDB) : Except ApiErr (List SegmentOut) :=
  match dbOpt with
  | none => .error (.http 500 "Database not configured")
  | some db => (list_segments_impl db).mapError ApiErr.exc

/-- GET /top-creators of src/main.py. -/
def top_creators (segment : Option String) (limit : Int) (dbOpt : Option MDB) :
    Except ApiErr (List CreatorOut) :=
  match dbOpt with
  | none => .error (.http 500 "Database not configured")
  | some db => (top_creators_impl db segment limit).mapError ApiErr.exc

/-- The diagnostics object returned by GET /test. -/
structure TestResponse where
  backend : String
  database : String
  database_url : Option String
  database_name : Option String
  connection_status : String
  collections : List String
deriving DecidableEq, Repr

/-- Python truthiness of os.getenv: unset or empty is falsy. -/
def truthyEnv : Option String → Bool
  | none => false
  | some s => s != ""

/-- Python string slicing s[:n], taking the first n characters. -/
def strSlice (s : String) (n : Nat) : String := ⟨s.data.take n⟩

/-- GET /test of src/main.py.  Inputs: whether the module-level db handle
is non-null, the DATABASE_URL and DATABASE_NAME environment values, and
the outcome of db.list_collection_names() (an exception is an error
value).  The handler catches that outcome and always returns a response
object. -/
def test_database (dbConfigured : Bool) (dbUrl dbName : Option String)
    (listRes : Except String (List String)) : TestResponse :=
  if dbConfigured then
    let base : TestResponse :=
      { backend := "✅ Running"
        database := "✅ Available"
        database_url := some (if truthyEnv dbUrl then "✅ Set" else "❌ Not Set")
        database_name := some (match dbName with
          | some s => if s = "" then "❌ Not Set" else s
          | none => "❌ Not Set")
        connection_status := "Connected"
        collections := [] }
    match listRes with
    | .ok cols => { base with collections := cols.take 10, database := "✅ Connected & Working" }
    | .error e => { base with database := "⚠️  Connected but Error: " ++ strSlice e 50 }
  else
    { backend := "✅ Running", database := "⚠️  Available but not initialized",
      database_url := none, database_name := none,
      connection_status := "Not Connected", collections := [] }

instance exceptDecEq [DecidableEq ε] [DecidableEq α] : DecidableEq (Except ε α) := fun a b =>
  match a, b with
  | .ok x, .ok y =>
    if h : x = y then isTrue (by rw [h]) else isFalse (fun hh => h (Except.ok.inj hh))
  | .error x, .error y =>
    if h : x = y then isTrue (by rw [h]) else isFalse (fun hh => h (Except.error.inj hh))
  | .ok _, .error _ => isFalse (fun hh => Except.noConfusion hh)
  | .error _, .ok _ => isFalse (fun hh => Except.noConfusion hh)

/-- The integer followers count of a stored creator document (0 when the
field is absent or not an integer). -/
def fInt (d : Doc) : Int :=
  match docGet d "followers" with
  | some (.vInt n) => n
  | _ => 0

/-- Number of documents of a collection whose given field is the given
string. -/
def countKeyEq (coll : List (Nat × Doc)) (key s : String) : Nat :=
  coll.countP (fun p => docGet p.2 key == some (.vStr s))

/-- The natural keys of the creator seed catalog. -/
def seedHandles : List String := ["technova", "gamepulse", "dailyflow", "proflearn"]

/-- A configured store with exactly the two creators A and B of the
filter-correctness property. -/
def dbFilterPair : MDB :=
  ⟨[],
   [(1, [("name", .vStr "A"), ("segments", .vList ["gaming"]), ("followers", .vInt 500)]),
    (2, [("name", .vStr "B"), ("segments", .vList ["technology"]), ("followers", .vInt 900)])],
   3⟩

/-- A configured store with a single creator. -/
def dbSingle : MDB :=
  ⟨[], [(0, [("name", .vStr "Solo"), ("segments", .vList ["technology"]),
             ("followers", .vInt 5)])], 1⟩

/-- A configured store with three creators whose follower counts are
100, 500 and 300, in that stored order. -/
def dbSort3 : MDB :=
  ⟨[],
   [(0, [("name", .vStr "P"), ("segments", .vList ["technology"]), ("followers", .vInt 100)]),
    (1, [("name", .vStr "Q"), ("segments", .vList ["gaming"]), ("followers", .vInt 500)]),
    (2, [("name", .vStr "R"), ("segments", .vList ["lifestyle"]), ("followers", .vInt 300)])],
   3⟩

/-- A store already holding a Segment with slug technology (with field
values differing from the catalog entry) and a Creator with handle
technova. -/
def dbPreSeeded : MDB :=
  ⟨[(7, [("name", .vStr "Old Tech"), ("slug", .vStr "technology"), ("color", .vStr "#000000")])],
   [(8, [("name", .vStr "Old Nova"), ("handle", .vStr "technova"),
         ("segments", .vList ["technology"]), ("followers", .vInt 1)])],
   9⟩

/-- A creator document carrying only the required name field. -/
def docNameOnly : Doc := [("name", .vStr "X")]

/-- C1: invoking the seed procedure twice in succession on an empty,
configured store yields segments_created = 4 and creators_created = 4
after the first call, 0 and 0 after the second, and the total number of
stored segment and creator records is unchanged between the end of the
first call and the end of the second. -/
theorem c1_seed_idempotent :
    ∃ db1 db2 : MDB,
      seed_data (some emptyMDB) = .ok (db1, ⟨4, 4⟩) ∧
      seed_data (some db1) = .ok (db2, ⟨0, 0⟩) ∧
      db2.segment.length = db1.segment.length ∧
      db2.creator.length = db1.creator.length := by
  refine ⟨(seed_data_impl emptyMDB).1, (seed_data_impl (seed_data_impl emptyMDB).1).1,
    ?_, ?_, ?_, ?_⟩ <;> decide

/-- C5: with creators A (segments [gaming], followers 500) and B
(segments [technology], followers 900) stored, top-creators with
segment = gaming returns exactly [A], and top-creators with no filter and
limit = 1 returns exactly [B]. -/
theorem c5_filter_correctness :
    top_creators (some "gaming") 8 (some dbFilterPair) =
      .ok [⟨"1", "A", none, none, ["gaming"], 500, 0, false⟩] ∧
    top_creators none 1 (some dbFilterPair) =
      .ok [⟨"2", "B", none, none, ["technology"], 900, 0, false⟩] := by
  constructor <;> decide

/-- C7: with no database configured (null handle), /seed, /segments and
/top-creators each return the explicit 500 failure before touching the
store, while /, /test and /api/hello still succeed. -/
theorem c7_unconfigured_failure (s : Option String) (l : Int)
    (u n : Option String) (lr : Except String (List String)) :
    seed_data none = .error (.http 500 "Database not configured") ∧
    list_segments none = .error (.http 500 "Database not configured") ∧
    top_creators s l none = .error (.http 500 "Database not configured") ∧
    read_root = ⟨"Creator Social API running"⟩ ∧
    hello = ⟨"Hello from the Creator Social backend!"⟩ ∧
    (test_database false u n lr).backend = "✅ Running" := by
  exact ⟨rfl, rfl, rfl, rfl, rfl, rfl⟩

/-- C10: passing the empty string as the segment parameter behaves
identically to passing no segment parameter at all: Python truthiness
makes both produce the empty filter. -/
theorem c10_empty_segment_is_no_filter (limit : Int) (dbOpt : Option MDB) :
    top_creators (some "") limit dbOpt = top_creators none limit dbOpt := by
  cases dbOpt with
  | none => rfl
  | some db =>
    have h : (fun p : Nat × Doc => creatorFilter (some "") p.2) =
        fun p : Nat × Doc => creatorFilter none p.2 := by
      funext p
      simp [creatorFilter]
    simp only [top_creators, top_creators_impl, h]

/-- C3 counterexample: the /test handler copies the DATABASE_NAME value
into the response, so two environments that both set DATABASE_NAME (to
different values) and agree on everything else get different responses. -/
theorem c3_counterexample :
    test_database true none (some "creators_a") (.ok []) ≠
      test_database true none (some "creators_b") (.ok []) := by
  decide

/-- C3 amended: presence-only reporting holds for the connection string:
the /test response depends on DATABASE_URL only through its truthiness,
so environments agreeing on its presence and on everything else receive
identical responses.  The DATABASE_NAME value, in contrast, is echoed
verbatim into the response when set. -/
theorem c3_url_presence_only (cfg : Bool) (u1 u2 nm : Option String)
    (lr : Except String (List String)) (h : truthyEnv u1 = truthyEnv u2) :
    test_database cfg u1 nm lr = test_database cfg u2 nm lr := by
  cases cfg with
  | false => rfl
  | true => simp only [test_database, h]

/-- Witness for the amended C3 at two concrete connection strings that
are both present. -/
theorem c3_url_presence_only_witness :
    truthyEnv (some "mongodb://db-a:27017") = truthyEnv (some "mongodb://db-b:27017") ∧
    test_database true (some "mongodb://db-a:27017") (some "creators") (.ok ["segment"]) =
      test_database true (some "mongodb://db-b:27017") (some "creators") (.ok ["segment"]) :=
  ⟨by decide, c3_url_presence_only true (some "mongodb://db-a:27017")
    (some "mongodb://db-b:27017") (some "creators") (.ok ["segment"]) (by decide)⟩

/-- C2 counterexample: on a configured store holding one creator,
top-creators with limit = 0 does not return the empty sequence: the
MongoDB cursor treats a limit of 0 as no limit. -/
theorem c2_counterexample :
    top_creators none 0 (some dbSingle) ≠ .ok [] := by
  decide

/-- C8: the diagnostics handler is total over every store behaviour: it
returns a response object (never a propagated failure) in which at most
10 collection names appear, and when the collection-listing call throws,
the failure shows up as the error string truncated to at most 50
characters inside the database field. -/
theorem c8_diagnostics_never_raises (cfg : Bool) (u n : Option String)
    (lr : Except String (List String)) :
    (test_database cfg u n lr).collections.length ≤ 10 ∧
    (∀ e, cfg = true → lr = .error e →
      (test_database cfg u n lr).database = "⚠️  Connected but Error: " ++ strSlice e 50 ∧
      (strSlice e 50).length ≤ 50) := by
  constructor
  · cases cfg with
    | false => simp [test_database]
    | true =>
      cases lr with
      | ok cols =>
        simp only [test_database, if_true]
        simp [Nat.min_le_left 10 cols.length]
      | error e => simp [test_database]
  · intro e hc hl
    subst hc
    subst hl
    refine ⟨rfl, ?_⟩
    have hlen : (strSlice e 50).length = (e.data.take 50).length := rfl
    rw [hlen, List.length_take]
    exact Nat.min_le_left 50 e.data.length

/-- Witness for C8 at a concrete throwing store. -/
theorem c8_diagnostics_never_raises_witness :
    (test_database true none none (.error "boom")).collections.length ≤ 10 ∧
    (test_database true none none (.error "boom")).database =
      "⚠️  Connected but Error: " ++ strSlice "boom" 50 ∧
    (strSlice "boom" 50).length ≤ 50 := by
  have h := c8_diagnostics_never_raises true none none (.error "boom")
  exact ⟨h.1, (h.2 "boom" rfl rfl).1, (h.2 "boom" rfl rfl).2⟩

/-- An Except is ok exactly when some value witnesses it. -/
theorem exOk_iff (e : Except String α) : exOk e = true ↔ ∃ a, e = .ok a := by
  cases e <;> simp [exOk]

/-- On a well-formed creator document the fallible projection succeeds
and agrees with its total counterpart. -/
theorem projectCreator_ok (p : Nat × Doc) (h : wfCreatorDoc p.2 = true) :
    projectCreator p = .ok (creatorOutOf p) := by
  unfold wfCreatorDoc at h
  simp only [Bool.and_eq_true] at h
  obtain ⟨⟨⟨⟨⟨h1, h2⟩, h3⟩, h4⟩, h5⟩, h6⟩ := h
  rw [exOk_iff] at h1 h2 h3 h4 h5 h6
  obtain ⟨nm, h1⟩ := h1
  obtain ⟨hd, h2⟩ := h2
  obtain ⟨av, h3⟩ := h3
  obtain ⟨sg, h4⟩ := h4
  obtain ⟨fo, h5⟩ := h5
  obtain ⟨ra, h6⟩ := h6
  simp [projectCreator, creatorOutOf, okD, h1, h2, h3, h4, h5, h6]

/-- The result loop of top_creators on a cursor of well-formed documents
succeeds with the pointwise projections. -/
theorem projectAll_ok (l : List (Nat × Doc)) (h : ∀ p ∈ l, wfCreatorDoc p.2 = true) :
    projectAll l = .ok (l.map creatorOutOf) := by
  induction l with
  | nil => rfl
  | cons p ps ih =>
    have hp := projectCreator_ok p (h p (by simp))
    have hps := ih (fun q hq => h q (by simp [hq]))
    simp [projectAll, hp, hps]

/-- C9: the read path is lenient for defaultable fields: for any raw
creator document accepted by the projection, an absent followers field
becomes 0, an absent rating 0.0, an absent verified false and an absent
segments the empty list, with no validation error raised. -/
theorem c9_lenient_read_defaults (i : Nat) (d : Doc) (h : wfCreatorDoc d = true) :
    projectCreator (i, d) = .ok (creatorOutOf (i, d)) ∧
    (docGet d "followers" = none → (creatorOutOf (i, d)).followers = 0) ∧
    (docGet d "rating" = none → (creatorOutOf (i, d)).rating = 0) ∧
    (docGet d "verified" = none → (creatorOutOf (i, d)).verified = false) ∧
    (docGet d "segments" = none → (creatorOutOf (i, d)).segments = []) := by
  refine ⟨projectCreator_ok (i, d) h, ?_, ?_, ?_, ?_⟩ <;> intro hnone <;>
    simp [creatorOutOf, okD, getFollowers, getRating, getVerified, getSegments,
      pyIntE, pyFloatE, pyTruthy, hnone]

/-- Witness for C9 on a document carrying only a name. -/
theorem c9_lenient_read_defaults_witness :
    projectCreator (5, docNameOnly) = .ok (creatorOutOf (5, docNameOnly)) ∧
    (creatorOutOf (5, docNameOnly)).followers = 0 ∧
    (creatorOutOf (5, docNameOnly)).rating = 0 ∧
    (creatorOutOf (5, docNameOnly)).verified = false ∧
    (creatorOutOf (5, docNameOnly)).segments = [] := by
  have h := c9_lenient_read_defaults 5 docNameOnly (by decide)
  exact ⟨h.1, h.2.1 (by decide), h.2.2.1 (by decide), h.2.2.2.1 (by decide),
    h.2.2.2.2 (by decide)⟩

/-- A cursor limit at least the list length, or the no-limit value 0,
returns the whole list. -/
theorem mongoLimit_of_le (n : Int) (xs : List α)
    (h : (xs.length : Int) ≤ n ∨ n = 0) : mongoLimit n xs = xs := by
  unfold mongoLimit
  rcases h with h | rfl
  · by_cases h0 : n = 0
    · simp [h0]
    · rw [if_neg h0]
      apply List.take_of_length_le
      omega
  · simp

/-- The empty filter keeps every creator document. -/
theorem filter_none_eq (l : List (Nat × Doc)) :
    (l.filter fun p => creatorFilter none p.2) = l := by
  simp [creatorFilter]

/-- C2 amended: with a well-formed creator collection, top-creators with
limit = 0 (no limit, per MongoDB cursor semantics) or with limit at least
the number of stored creators returns all of them. -/
theorem c2_limit_boundary (db : MDB) (limit : Int)
    (hwf : ∀ p ∈ db.creator, wfCreatorDoc p.2 = true)
    (hlim : (db.creator.length : Int) ≤ limit ∨ limit = 0) :
    ∃ res, top_creators none limit (some db) = .ok res ∧
      res.Perm (db.creator.map creatorOutOf) ∧
      res.length = db.creator.length := by
  have hperm : (sortFollowersDesc db.creator).Perm db.creator :=
    List.perm_insertionSort _ _
  have hsortlen : (sortFollowersDesc db.creator).length = db.creator.length :=
    hperm.length_eq
  have hlimit : mongoLimit limit (sortFollowersDesc db.creator) =
      sortFollowersDesc db.creator := by
    apply mongoLimit_of_le
    rcases hlim with h | h
    · left
      rw [hsortlen]
      exact h
    · right
      exact h
  have hwf2 : ∀ p ∈ sortFollowersDesc db.creator, wfCreatorDoc p.2 = true :=
    fun p hp => hwf p (hperm.mem_iff.mp hp)
  refine ⟨(sortFollowersDesc db.creator).map creatorOutOf, ?_, ?_, ?_⟩
  · simp [top_creators, top_creators_impl, filter_none_eq, hlimit,
      projectAll_ok _ hwf2, Except.mapError]
  · exact hperm.map creatorOutOf
  · simp [hsortlen]

/-- Witness for the amended C2 on the two-creator store with a limit
exceeding the stored count. -/
theorem c2_limit_boundary_witness :
    (∀ p ∈ dbFilterPair.creator, wfCreatorDoc p.2 = true) ∧
    ∃ res, top_creators none 5 (some dbFilterPair) = .ok res ∧
      res.Perm (dbFilterPair.creator.map creatorOutOf) ∧
      res.length = dbFilterPair.creator.length :=
  ⟨by decide, c2_limit_boundary dbFilterPair 5 (by decide) (by decide)⟩

/-- The seed loop only ever appends to the collection: every pre-existing
record, with all its fields and its identifier, survives unchanged in
place. -/
theorem seedLoop_append (key : String) (entries : List Doc)
    (coll : List (Nat × Doc)) (nid cnt : Nat) :
    ∃ tl, (seedLoop key entries coll nid cnt).1 = coll ++ tl := by
  induction entries generalizing coll nid cnt with
  | nil => exact ⟨[], by simp [seedLoop]⟩
  | cons e rest ih =>
    rw [seedLoop]
    by_cases h : (coll.find? (fun p =>
        mongoEqMatch (docGet p.2 key) ((docGet e key).getD .vNull))).isSome
    · rw [if_pos h]
      exact ih coll nid cnt
    · rw [if_neg h]
      obtain ⟨tl, htl⟩ := ih (coll ++ [(nid, e)]) (nid + 1) (cnt + 1)
      refine ⟨(nid, e) :: tl, ?_⟩
      rw [htl, List.append_assoc]
      rfl

/-- When some record already carries the natural-key value s, running the
seed loop never changes the number of records carrying s: the catalog
entry with that key is skipped by the pre-insert existence check, and the
other entries insert documents with different key values. -/
theorem seedLoop_count_preserved (key s : String) (entries : List Doc)
    (coll : List (Nat × Doc)) (nid cnt : Nat)
    (hex : ∃ p ∈ coll, docGet p.2 key = some (.vStr s)) :
    countKeyEq (seedLoop key entries coll nid cnt).1 key s = countKeyEq coll key s := by
  induction entries generalizing coll nid cnt with
  | nil => simp [seedLoop]
  | cons e rest ih =>
    rw [seedLoop]
    by_cases h : (coll.find? (fun p =>
        mongoEqMatch (docGet p.2 key) ((docGet e key).getD .vNull))).isSome
    · rw [if_pos h]
      exact ih coll nid cnt hex
    · rw [if_neg h]
      have hne : (docGet e key == some (BVal.vStr s)) = false := by
        rw [beq_eq_false_iff_ne]
        intro heq
        apply h
        rw [List.find?_isSome]
        obtain ⟨p, hp, hps⟩ := hex
        refine ⟨p, hp, ?_⟩
        rw [hps, heq]
        simp [mongoEqMatch]
      have hcount : countKeyEq (coll ++ [(nid, e)]) key s = countKeyEq coll key s := by
        unfold countKeyEq
        rw [List.countP_append]
        simp [List.countP_cons, hne]
      have hex2 : ∃ p ∈ coll ++ [(nid, e)], docGet p.2 key = some (.vStr s) := by
        obtain ⟨p, hp, hps⟩ := hex
        exact ⟨p, List.mem_append_left _ hp, hps⟩
      rw [ih (coll ++ [(nid, e)]) (nid + 1) (cnt + 1) hex2, hcount]

/-- C4: seeding a store that already holds a Segment whose slug equals
technology (whatever its other fields) inserts no second Segment with
that slug, and the analogous statement holds for a pre-existing Creator
whose handle matches a seed-catalog handle; moreover seeding only appends,
so every field of every pre-existing record is left unchanged. -/
theorem c4_natural_key_dedup (db : MDB)
    (hseg : ∃ p ∈ db.segment, docGet p.2 "slug" = some (.vStr "technology"))
    (hdl : String) (_hmem : hdl ∈ seedHandles)
    (hcrt : ∃ p ∈ db.creator, docGet p.2 "handle" = some (.vStr hdl)) :
    countKeyEq (seed_data_impl db).1.segment "slug" "technology" =
      countKeyEq db.segment "slug" "technology" ∧
    countKeyEq (seed_data_impl db).1.creator "handle" hdl =
      countKeyEq db.creator "handle" hdl ∧
    (∃ tl, (seed_data_impl db).1.segment = db.segment ++ tl) ∧
    (∃ tl, (seed_data_impl db).1.creator = db.creator ++ tl) := by
  refine ⟨?_, ?_, ?_, ?_⟩
  · exact seedLoop_count_preserved "slug" "technology" segmentsSeed db.segment db.nextId 0 hseg
  · exact seedLoop_count_preserved "handle" hdl creatorsSeed db.creator
      (seedLoop "slug" segmentsSeed db.segment db.nextId 0).2.1 0 hcrt
  · exact seedLoop_append "slug" segmentsSeed db.segment db.nextId 0
  · exact seedLoop_append "handle" creatorsSeed db.creator
      (seedLoop "slug" segmentsSeed db.segment db.nextId 0).2.1 0

/-- Witness for C4 on a store pre-seeded with a divergent technology
segment and a divergent technova creator. -/
theorem c4_natural_key_dedup_witness :
    countKeyEq (seed_data_impl dbPreSeeded).1.segment "slug" "technology" =
      countKeyEq dbPreSeeded.segment "slug" "technology" ∧
    countKeyEq (seed_data_impl dbPreSeeded).1.creator "handle" "technova" =
      countKeyEq dbPreSeeded.creator "handle" "technova" ∧
    (∃ tl, (seed_data_impl dbPreSeeded).1.segment = dbPreSeeded.segment ++ tl) ∧
    (∃ tl, (seed_data_impl dbPreSeeded).1.creator = dbPreSeeded.creator ++ tl) :=
  c4_natural_key_dedup dbPreSeeded (by decide) "technova" (by decide) (by decide)

/-- C6: on a store of creators whose followers fields are integers with
pairwise distinct values, top-creators with no filter and a limit at
least the stored count returns all of them, in strictly decreasing
followers order. -/
theorem c6_sort_order (db : MDB) (limit : Int)
    (hwf : ∀ p ∈ db.creator, wfCreatorDoc p.2 = true)
    (hint : ∀ p ∈ db.creator, docGet p.2 "followers" = some (.vInt (fInt p.2)))
    (hdist : (db.creator.map (fun p => fInt p.2)).Pairwise (· ≠ ·))
    (hlim : (db.creator.length : Int) ≤ limit) :
    ∃ res, top_creators none limit (some db) = .ok res ∧
      res.Perm (db.creator.map creatorOutOf) ∧
      (res.map CreatorOut.followers).Pairwise (· > ·) := by
  have hperm : (sortFollowersDesc db.creator).Perm db.creator :=
    List.perm_insertionSort _ _
  have hlimit : mongoLimit limit (sortFollowersDesc db.creator) =
      sortFollowersDesc db.creator := by
    apply mongoLimit_of_le
    left
    rw [hperm.length_eq]
    exact hlim
  have hwf2 : ∀ p ∈ sortFollowersDesc db.creator, wfCreatorDoc p.2 = true :=
    fun p hp => hwf p (hperm.mem_iff.mp hp)
  have hint2 : ∀ p ∈ sortFollowersDesc db.creator,
      docGet p.2 "followers" = some (.vInt (fInt p.2)) :=
    fun p hp => hint p (hperm.mem_iff.mp hp)
  have hsorted : List.Pairwise descOrder (sortFollowersDesc db.creator) :=
    List.sorted_insertionSort descOrder db.creator
  have hdist2 : List.Pairwise (fun p q : Nat × Doc => fInt p.2 ≠ fInt q.2)
      (sortFollowersDesc db.creator) := by
    have h1 : List.Pairwise (fun p q : Nat × Doc => fInt p.2 ≠ fInt q.2) db.creator :=
      List.pairwise_map.mp hdist
    exact (hperm.pairwise_iff (fun {a b} h => Ne.symm h)).mpr h1
  have hstrict : List.Pairwise (fun p q : Nat × Doc => fInt p.2 > fInt q.2)
      (sortFollowersDesc db.creator) := by
    refine (hsorted.and hdist2).imp_of_mem ?_
    intro p q hp hq hpq
    obtain ⟨hle, hne⟩ := hpq
    have hkp : docKey p.2 = (1, ((fInt p.2 : Int) : Rat)) := by
      unfold docKey
      rw [hint2 p hp]
    have hkq : docKey q.2 = (1, ((fInt q.2 : Int) : Rat)) := by
      unfold docKey
      rw [hint2 q hq]
    unfold descOrder keyLE at hle
    rw [hkp, hkq] at hle
    rcases hle with h | ⟨_, h2⟩
    · exact absurd h (by simp)
    · exact lt_of_le_of_ne (Int.cast_le.mp h2) (Ne.symm hne)
  refine ⟨(sortFollowersDesc db.creator).map creatorOutOf, ?_, ?_, ?_⟩
  · simp [top_creators, top_creators_impl, filter_none_eq, hlimit,
      projectAll_ok _ hwf2, Except.mapError]
  · exact hperm.map creatorOutOf
  · have hmapeq : ((sortFollowersDesc db.creator).map creatorOutOf).map CreatorOut.followers =
        (sortFollowersDesc db.creator).map (fun p => fInt p.2) := by
      rw [List.map_map]
      apply List.map_congr_left
      intro p hp
      show (creatorOutOf p).followers = fInt p.2
      simp [creatorOutOf, getFollowers, hint2 p hp, pyIntE, okD]
    rw [hmapeq]
    exact List.pairwise_map.mpr hstrict

/-- Witness for C6 on the three-creator store with followers
100, 500 and 300. -/
theorem c6_sort_order_witness :
    ∃ res, top_creators none 8 (some dbSort3) = .ok res ∧
      res.Perm (dbSort3.creator.map creatorOutOf) ∧
      (res.map CreatorOut.followers).Pairwise (· > ·) := by
  refine c6_sort_order dbSort3 8 (by decide) ?_ (by decide) (by decide)
  intro p hp
  fin_cases hp <;> decide
